import Mathlib

/-!
Verification of the BookTraker repository (src/app.py): a single-user
reading tracker storing books, sessions and goals in SQLite, accessed
through a cursor context manager that commits on success and rolls back
on any exception.

The embedding models the SQLite store as explicit Lean data.  One fact
about the runtime matters throughout: app.py's get_connection opens the
sqlite3 connection without ever executing PRAGMA foreign_keys=ON, and
SQLite leaves foreign-key enforcement OFF by default.  Consequently the
FOREIGN KEY ... ON DELETE CASCADE clause declared on the sessions table
is inert at runtime: DELETE FROM books removes only book rows, and an
INSERT into sessions with a dangling book_id succeeds.  The operations
below embed that actual behaviour.
-/

namespace BookTraker

/-- Calendar timestamp, the embedding of the ISO-8601 strings produced by
datetime.utcnow().isoformat(timespec="seconds") and parsed back by
pandas.to_datetime. -/
structure DateTime where
  year : Int
  month : Int
  day : Int
  hour : Int
  minute : Int
  second : Int
deriving DecidableEq, Repr

/-- Days since 1970-01-01 of a civil date (proleptic Gregorian), the
standard days-from-civil computation that underlies datetime/pandas
timestamp differences. -/
def daysFromCivil (y m d : Int) : Int :=
  let y1 : Int := if m ≤ 2 then y - 1 else y
  let era : Int := (if 0 ≤ y1 then y1 else y1 - 399) / 400
  let yoe : Int := y1 - era * 400
  let mp : Int := if 2 < m then m - 3 else m + 9
  let doy : Int := (153 * mp + 2) / 5 + d - 1
  let doe : Int := yoe * 365 + yoe / 4 - yoe / 100 + doy
  era * 146097 + doe - 719468

/-- Absolute time in seconds, so that pandas' (end - start).total_seconds()
is the difference of the two values. -/
def DateTime.toSeconds (t : DateTime) : Int :=
  daysFromCivil t.year t.month t.day * 86400 + t.hour * 3600 + t.minute * 60 + t.second

/-- A row of the books table. -/
structure Book where
  id : Int
  title : String
  author : String
  isbn : Option String
  total_pages : Option Int
  shelf : String
  added_at : String
deriving DecidableEq, Repr

/-- A row of the sessions table.  start_ts / end_ts are stored as ISO
text in SQLite; they are embedded as DateTime values. -/
structure SessionRow where
  id : Int
  book_id : Int
  start_ts : DateTime
  end_ts : DateTime
  pages_read : Int
  note : String
deriving DecidableEq, Repr

/-- A row of the goals table (id is CHECK-constrained to 1). -/
structure GoalsRow where
  id : Int
  year : Int
  daily_minutes : Int
  yearly_books : Int
deriving DecidableEq, Repr

/-- The committed SQLite store: the three tables plus the AUTOINCREMENT
counters of books and sessions. -/
structure DB where
  books : List Book
  sessions : List SessionRow
  goals : List GoalsRow
  nextBookId : Int
  nextSessionId : Int
deriving DecidableEq, Repr

/-! ### Row-level write operations (the SQL statements of app.py)

Each mirrors one parameterized statement.  Foreign keys are not
enforced (see the file header), so INSERT INTO sessions and DELETE FROM
books never touch the other table. -/

/-- INSERT INTO books (title, author, isbn, total_pages, shelf, added_at). -/
def insertBookRow (db : DB) (title author : String) (isbn : Option String)
    (total_pages : Option Int) (shelf : String) (added_at : String) : DB :=
  { db with
    books := db.books ++ [⟨db.nextBookId, title, author, isbn, total_pages, shelf, added_at⟩],
    nextBookId := db.nextBookId + 1 }

/-- UPDATE books SET ... WHERE id = ?. -/
def updateBookRow (db : DB) (book_id : Int) (title author : String)
    (isbn : Option String) (total_pages : Option Int) (shelf : String) : DB :=
  { db with
    books := db.books.map fun b =>
      if b.id = book_id then
        { b with title := title, author := author, isbn := isbn,
                 total_pages := total_pages, shelf := shelf }
      else b }

/-- DELETE FROM books WHERE id = ?.  Only book rows are deleted: the
declared ON DELETE CASCADE never fires because foreign-key enforcement
is off on this connection. -/
def removeBookRow (db : DB) (book_id : Int) : DB :=
  { db with books := db.books.filter fun b => b.id ≠ book_id }

/-- INSERT INTO sessions (book_id, start_ts, end_ts, pages_read, note).
Succeeds even for a dangling book_id (foreign keys unenforced). -/
def insertSessionRow (db : DB) (book_id : Int) (start_ts end_ts : DateTime)
    (pages_read : Int) (note : String) : DB :=
  { db with
    sessions := db.sessions ++ [⟨db.nextSessionId, book_id, start_ts, end_ts, pages_read, note⟩],
    nextSessionId := db.nextSessionId + 1 }

/-- INSERT INTO goals (id, year, daily_minutes, yearly_books) VALUES (1, ...)
ON CONFLICT(id) DO UPDATE SET ...: SQLite's upsert on the primary key. -/
def upsertGoalsRow (db : DB) (year daily_minutes yearly_books : Int) : DB :=
  if db.goals.any (fun r => r.id = 1) then
    { db with goals := db.goals.map fun r =>
        if r.id = 1 then
          { r with year := year, daily_minutes := daily_minutes, yearly_books := yearly_books }
        else r }
  else
    { db with goals := db.goals ++ [⟨1, year, daily_minutes, yearly_books⟩] }

/-! ### The cursor context manager (get_cursor)

A unit of work is a sequence of write statements followed by an outcome:
either the body finished normally or it raised.  The connection holds
the committed store plus the statements executed inside the open
transaction; conn.commit() applies them, conn.rollback() discards them.
get_cursor yields, then commits on normal exit and rolls back
(re-raising) on an exception — exactly the try/except/finally of
app.py lines 48-59. -/

/-- One write statement executed through the cursor. -/
inductive Mutation where
  | insertBook (title author : String) (isbn : Option String)
      (total_pages : Option Int) (shelf : String) (added_at : String)
  | updateBook (book_id : Int) (title author : String) (isbn : Option String)
      (total_pages : Option Int) (shelf : String)
  | removeBook (book_id : Int)
  | insertSession (book_id : Int) (start_ts end_ts : DateTime)
      (pages_read : Int) (note : String)
  | upsertGoals (year daily_minutes yearly_books : Int)
deriving DecidableEq, Repr

/-- Effect of one statement on the committed store. -/
def applyMutation (db : DB) : Mutation → DB
  | .insertBook t a i p s ts => insertBookRow db t a i p s ts
  | .updateBook bid t a i p s => updateBookRow db bid t a i p s
  | .removeBook bid => removeBookRow db bid
  | .insertSession bid s e p n => insertSessionRow db bid s e p n
  | .upsertGoals y d b => upsertGoalsRow db y d b

/-- A connection: committed state plus the statements pending inside the
currently open transaction. -/
structure Conn where
  committed : DB
  pending : List Mutation
deriving Repr

/-- cursor.execute of a write statement: recorded in the open transaction,
not yet visible in the committed store. -/
def Conn.execute (c : Conn) (m : Mutation) : Conn :=
  { c with pending := c.pending ++ [m] }

/-- conn.commit(): the pending statements become the committed store. -/
def Conn.commit (c : Conn) : Conn :=
  ⟨c.pending.foldl applyMutation c.committed, []⟩

/-- conn.rollback(): the pending statements are discarded. -/
def Conn.rollback (c : Conn) : Conn :=
  ⟨c.committed, []⟩

/-- get_cursor: run the body's statements, then commit if the body
finished normally, else roll back and re-raise.  The body is given by
the statements it executed before finishing or raising, and its
outcome. -/
def get_cursor (muts : List Mutation) (outcome : Except String Unit) (c : Conn) :
    Conn × Except String Unit :=
  let c1 := muts.foldl Conn.execute c
  match outcome with
  | .ok _ => (c1.commit, .ok ())
  | .error e => (c1.rollback, .error e)

/-! ### Top-level persistence operations of app.py -/

/-- remove_book: DELETE FROM books WHERE id = ? inside get_cursor. -/
def remove_book (db : DB) (book_id : Int) : DB :=
  ((get_cursor [.removeBook book_id] (.ok ()) ⟨db, []⟩).1).committed

/-- insert_session: INSERT INTO sessions inside get_cursor. -/
def insert_session (db : DB) (book_id : Int) (start_ts end_ts : DateTime)
    (pages_read : Int) (note : String) : DB :=
  ((get_cursor [.insertSession book_id start_ts end_ts pages_read note] (.ok ()) ⟨db, []⟩).1).committed

/-- update_goals: the goals upsert inside get_cursor. -/
def update_goals (db : DB) (year daily_minutes yearly_books : Int) : DB :=
  ((get_cursor [.upsertGoals year daily_minutes yearly_books] (.ok ()) ⟨db, []⟩).1).committed

/-! ### fetch_books: ORDER BY an allow-listed column COLLATE NOCASE -/

/-- SQLite NOCASE folds ASCII uppercase to lowercase before byte
comparison. -/
def foldChar (c : Char) : Nat :=
  if 'A' ≤ c ∧ c ≤ 'Z' then c.toNat + 32 else c.toNat

/-- Lexicographic order on byte sequences (memcmp order, with the
shorter sequence first when one is a prefix of the other). -/
def lexLeNat : List Nat → List Nat → Bool
  | [], _ => true
  | _ :: _, [] => false
  | a :: as, b :: bs => if a < b then true else if b < a then false else lexLeNat as bs

/-- TEXT comparison under COLLATE NOCASE. -/
def nocaseLe (s t : String) : Bool :=
  lexLeNat (s.data.map foldChar) (t.data.map foldChar)

/-- The fixed allow-list of sortable columns (valid_columns in
fetch_books). -/
def valid_columns : List String := ["title", "author", "added_at", "shelf"]

/-- column = order_by if order_by in valid_columns else "title". -/
def orderColumn (order_by : String) : String :=
  if order_by ∈ valid_columns then order_by else "title"

/-- The TEXT value of a sortable column of a book row. -/
def bookCol (column : String) (b : Book) : String :=
  if column = "author" then b.author
  else if column = "added_at" then b.added_at
  else if column = "shelf" then b.shelf
  else b.title

/-- The NOCASE ordering on book rows induced by a column. -/
def bookLe (column : String) (a b : Book) : Prop :=
  nocaseLe (bookCol column a) (bookCol column b) = true

instance (column : String) : DecidableRel (bookLe column) :=
  fun _ _ => instDecidableEqBool _ _

/-- fetch_books: SELECT * FROM books ORDER BY column COLLATE NOCASE. -/
def fetch_books (db : DB) (order_by : String) : List Book :=
  let column := orderColumn order_by
  db.books.insertionSort (bookLe column)

/-! ### fetch_sessions: inner join with books, newest first, optional limit -/

/-- A row of the fetch_sessions result: SELECT s.*, b.title, b.author. -/
structure JoinedRow where
  s : SessionRow
  title : String
  author : String
deriving DecidableEq, Repr

/-- FROM sessions s JOIN books b ON b.id = s.book_id: one output row per
matching (session, book) pair; sessions without a matching book produce
no row. -/
def joinSessionsBooks (db : DB) : List JoinedRow :=
  db.sessions.flatMap fun s =>
    (db.books.filter fun b => b.id = s.book_id).map fun b => ⟨s, b.title, b.author⟩

/-- fetch_sessions: the join, ORDER BY start_ts DESC, and LIMIT appended
only when the Python limit argument is truthy (None and 0 both mean no
limit). -/
def fetch_sessions (db : DB) (limit : Option Nat) : List JoinedRow :=
  let rows := (joinSessionsBooks db).insertionSort
    fun a b => b.s.start_ts.toSeconds ≤ a.s.start_ts.toSeconds
  match limit with
  | none => rows
  | some n => if n = 0 then rows else rows.take n

/-! ### fetch_goals -/

/-- The dict returned by fetch_goals (keys year, daily_minutes,
yearly_books; the id key of a stored row is irrelevant to callers). -/
structure GoalsView where
  year : Int
  daily_minutes : Int
  yearly_books : Int
deriving DecidableEq, Repr

/-- fetch_goals: SELECT * FROM goals WHERE id = 1 inside get_cursor
(a read-only unit of work: no statement is pending, so the commit on
exit is a no-op); defaults when no row exists.  nowYear is
datetime.utcnow().year.  Returns the dict and the store the connection
holds afterwards. -/
def fetch_goals (db : DB) (nowYear : Int) : GoalsView × DB :=
  let c := (get_cursor [] (.ok ()) ⟨db, []⟩).1
  let view :=
    match db.goals.find? (fun r => r.id = 1) with
    | none => ⟨nowYear, 30, 24⟩
    | some r => ⟨r.year, r.daily_minutes, r.yearly_books⟩
  (view, c.committed)

/-! ### The transient active-session record (session_tab) -/

/-- Python str.strip() whitespace. -/
def pySpace (c : Char) : Bool :=
  c = ' ' || c = '\t' || c = '\n' || c = '\r' || c = '\x0B' || c = '\x0C'

/-- Python str.strip(): drop leading and trailing whitespace. -/
def pyStrip (s : String) : String :=
  ⟨((s.data.dropWhile pySpace).reverse.dropWhile pySpace).reverse⟩

/-- st.session_state.active_session when not None: book id, captured
start timestamp, display label. -/
structure ActiveRec where
  book_id : Int
  start_ts : DateTime
  label : String
deriving DecidableEq, Repr

/-- The state session_tab operates on: the store plus the transient
active-session marker. -/
structure AppState where
  db : DB
  active : Option ActiveRec
deriving Repr

/-- The Start-session button: shown only when no session is active;
captures book id, utcnow and label. -/
def start_session (st : AppState) (book_id : Int) (label : String) (now : DateTime) : AppState :=
  match st.active with
  | none => { st with active := some ⟨book_id, now, label⟩ }
  | some _ => st

/-- The Stop-and-log button: shown only when a session is active;
captures end = utcnow, inserts the session row, clears the marker. -/
def stop_session (st : AppState) (now : DateTime) (pages_read : Int) (note : String) : AppState :=
  match st.active with
  | none => st
  | some a =>
      { db := insert_session st.db a.book_id a.start_ts now pages_read (pyStrip note),
        active := none }

/-! ### Sessions CSV import (settings_tab) -/

/-- One parsed CSV line of a sessions import.  book_id and pages_read go
through int(); a field on which int() raises is none (pages_read absent
from the file is some 0 via row.get("pages_read", 0)). -/
structure CsvSessionRow where
  book_id : Option Int
  start_ts : DateTime
  end_ts : DateTime
  pages_read : Option Int
  note : String
deriving DecidableEq, Repr

/-- The sessions import loop: each row is tried independently; an int()
failure raises and the except branch skips the row; otherwise
insert_session succeeds — even for a book_id no book has, foreign keys
being unenforced — and the imported counter increments. -/
def import_sessions (db : DB) (rows : List CsvSessionRow) : DB × Nat :=
  rows.foldl
    (fun acc row =>
      match row.book_id, row.pages_read with
      | some bid, some p =>
          (insert_session acc.1 bid row.start_ts row.end_ts p row.note, acc.2 + 1)
      | _, _ => acc)
    (db, 0)

/-! ### Derived statistics (stats_tab, session_tab) -/

/-- The calendar month of a session's start
(pd.to_datetime(start_ts).dt.to_period("M")). -/
def monthKey (s : SessionRow) : Int × Int :=
  (s.start_ts.year, s.start_ts.month)

/-- df_sessions["pages_read"].sum(). -/
def totalPages (l : List SessionRow) : Int :=
  (l.map SessionRow.pages_read).sum

/-- df_sessions.groupby("month")["pages_read"].sum(): one entry per
distinct month, holding the sum of pages_read of the sessions starting
in that month. -/
def monthlyPages (l : List SessionRow) : List ((Int × Int) × Int) :=
  ((l.map monthKey).dedup).map fun k =>
    (k, totalPages (l.filter fun s => monthKey s = k))

/-- session_df["duration_min"]: (end_ts - start_ts).total_seconds() / 60. -/
def duration_min (row : SessionRow) : ℚ :=
  ((row.end_ts.toSeconds - row.start_ts.toSeconds : Int) : ℚ) / 60

/-! ## Theorems -/

/-- Executing a list of statements appends them to the open transaction
and leaves the committed store untouched. -/
lemma foldl_execute (muts : List Mutation) (c : Conn) :
    muts.foldl Conn.execute c = ⟨c.committed, c.pending ++ muts⟩ := by
  induction muts generalizing c with
  | nil => simp
  | cons m ms ih => simp [Conn.execute, ih]

/-- C2: every unit of work run through the get_cursor context manager is
atomic: if the body raises, the transaction is rolled back — the
committed store is exactly what it was before — and the exception is
re-raised; if the body completes, its statements are committed in
order. -/
theorem get_cursor_atomic (muts : List Mutation) (db : DB) (e : String) :
    (get_cursor muts (Except.error e) ⟨db, []⟩).1.committed = db ∧
    (get_cursor muts (Except.error e) ⟨db, []⟩).2 = Except.error e ∧
    (get_cursor muts (Except.ok ()) ⟨db, []⟩).1.committed = muts.foldl applyMutation db ∧
    (get_cursor muts (Except.ok ()) ⟨db, []⟩).2 = Except.ok () := by
  refine ⟨?_, rfl, ?_, rfl⟩ <;>
    simp [get_cursor, foldl_execute, Conn.rollback, Conn.commit]

/-- Start of the seeded morning session used as concrete data. -/
def dtMorningStart : DateTime := ⟨2026, 1, 1, 9, 0, 0⟩

/-- End of the seeded morning session used as concrete data. -/
def dtMorningEnd : DateTime := ⟨2026, 1, 1, 10, 0, 0⟩

/-- A store holding one book (id 1) and one session referencing it. -/
def c1_db : DB :=
  { books := [⟨1, "Atomic Habits", "James Clear", none, some 320, "reading", "2026-01-01T00:00:00"⟩],
    sessions := [⟨1, 1, dtMorningStart, dtMorningEnd, 25, "Morning session"⟩],
    goals := [],
    nextBookId := 2,
    nextSessionId := 2 }

/-- C1: remove_book does NOT cascade to the book's sessions.  On a store
with one book (id 1) and one session referencing it, remove_book 1
deletes the book row yet the session row with book_id 1 survives,
leaving a session that references no existing book.  The DELETE touches
only the books table because the connection never enables foreign-key
enforcement, so the declared ON DELETE CASCADE is inert. -/
theorem remove_book_leaves_orphan_session :
    (remove_book c1_db 1).books = [] ∧
    ((remove_book c1_db 1).sessions.filter fun s => s.book_id = 1) =
      [⟨1, 1, dtMorningStart, dtMorningEnd, 25, "Morning session"⟩] := by
  constructor <;> rfl

/-- The empty store (fresh database before any insert). -/
def empty_db : DB := ⟨[], [], [], 1, 1⟩

/-- C10: fetch_goals leaves the stored state unchanged — it executes no
write statement, so the commit on leaving the cursor is a no-op — and
when the goals table holds no row it returns the defaults
(current UTC year, 30 daily minutes, 24 yearly books). -/
theorem fetch_goals_read_only (db : DB) (nowYear : Int) :
    (fetch_goals db nowYear).2 = db ∧
    (db.goals = [] → (fetch_goals db nowYear).1 = ⟨nowYear, 30, 24⟩) := by
  constructor
  · simp [fetch_goals, get_cursor, Conn.commit, foldl_execute]
  · intro h
    simp [fetch_goals, h]

/-- C10 witness: on the empty store, fetch_goals returns the defaults
for year 2026 and does not modify the store. -/
theorem fetch_goals_read_only_witness :
    (fetch_goals empty_db 2026).2 = empty_db ∧
    (fetch_goals empty_db 2026).1 = ⟨2026, 30, 24⟩ :=
  ⟨(fetch_goals_read_only empty_db 2026).1, (fetch_goals_read_only empty_db 2026).2 rfl⟩

/-- A reachable state of the goals table: empty, or a single row with
id 1 (the CHECK(id = 1) constraint and the primary key allow nothing
else). -/
def goalsValid (g : List GoalsRow) : Prop :=
  g = [] ∨ ∃ y d b, g = [⟨1, y, d, b⟩]

/-- The goals upsert always leaves exactly the single row
(1, year, daily_minutes, yearly_books). -/
lemma update_goals_goals (db : DB) (y d b : Int) (h : goalsValid db.goals) :
    (update_goals db y d b).goals = [⟨1, y, d, b⟩] := by
  have hrw : update_goals db y d b = upsertGoalsRow db y d b := by
    simp [update_goals, get_cursor, Conn.commit, Conn.execute, applyMutation]
  rw [hrw]
  rcases h with h | ⟨y0, d0, b0, h⟩ <;> simp [upsertGoalsRow, h]

/-- C4: update_goals is an idempotent upsert: from any reachable state
of the goals table, one call leaves exactly the single row
(id 1, year, daily_minutes, yearly_books), and a second identical call
leaves that same single row — never a second row. -/
theorem update_goals_idempotent_upsert (db : DB) (y d b : Int) (h : goalsValid db.goals) :
    (update_goals db y d b).goals = [⟨1, y, d, b⟩] ∧
    (update_goals (update_goals db y d b) y d b).goals = [⟨1, y, d, b⟩] := by
  have h1 := update_goals_goals db y d b h
  exact ⟨h1, update_goals_goals _ y d b (Or.inr ⟨y, d, b, h1⟩)⟩

/-- C4 witness: upserting (2026, 30, 24) once and twice into the empty
goals table both yield the single row (1, 2026, 30, 24). -/
theorem update_goals_idempotent_upsert_witness :
    (update_goals empty_db 2026 30 24).goals = [⟨1, 2026, 30, 24⟩] ∧
    (update_goals (update_goals empty_db 2026 30 24) 2026 30 24).goals = [⟨1, 2026, 30, 24⟩] :=
  update_goals_idempotent_upsert empty_db 2026 30 24 (Or.inl rfl)

/-- C6: from an idle state, starting a session on a book and then
stopping it with pages_read = 25 appends exactly one session row — its
book_id the captured book, its start_ts the timestamp captured at
start, its end_ts the timestamp captured at stop, its pages_read 25,
its note the stripped note text — and clears the transient
active-session marker back to None. -/
theorem start_stop_session (st : AppState) (h : st.active = none)
    (bid : Int) (label : String) (t1 t2 : DateTime) (note : String) :
    (stop_session (start_session st bid label t1) t2 25 note).db.sessions =
      st.db.sessions ++ [⟨st.db.nextSessionId, bid, t1, t2, 25, pyStrip note⟩] ∧
    (stop_session (start_session st bid label t1) t2 25 note).active = none := by
  simp [start_session, stop_session, h, insert_session, get_cursor, Conn.commit,
    Conn.execute, applyMutation, insertSessionRow]

/-- C6 witness: on the concrete store with one book, starting at
09:00:00 and stopping at 10:00:00 with 25 pages appends exactly the one
expected row and clears the marker. -/
theorem start_stop_session_witness :
    (stop_session (start_session ⟨c1_db, none⟩ 1 "Atomic Habits - James Clear" dtMorningStart)
        dtMorningEnd 25 "nice").db.sessions =
      c1_db.sessions ++ [⟨2, 1, dtMorningStart, dtMorningEnd, 25, pyStrip "nice"⟩] ∧
    (stop_session (start_session ⟨c1_db, none⟩ 1 "Atomic Habits - James Clear" dtMorningStart)
        dtMorningEnd 25 "nice").active = none :=
  start_stop_session ⟨c1_db, none⟩ rfl 1 "Atomic Habits - James Clear"
    dtMorningStart dtMorningEnd "nice"

/-- C7: the computed session duration is exactly the end timestamp
minus the start timestamp (duration_min is that difference in minutes,
so 60 times it recovers the difference in seconds), and whenever the
record is valid (end at or after start) the duration is nonnegative. -/
theorem duration_eq_end_sub_start (row : SessionRow) :
    duration_min row * 60 = ((row.end_ts.toSeconds - row.start_ts.toSeconds : Int) : ℚ) ∧
    (row.start_ts.toSeconds ≤ row.end_ts.toSeconds → 0 ≤ duration_min row) := by
  constructor
  · rw [duration_min]
    ring
  · intro h
    rw [duration_min]
    have h0 : (0 : ℚ) ≤ ((row.end_ts.toSeconds - row.start_ts.toSeconds : Int) : ℚ) := by
      have : (0 : Int) ≤ row.end_ts.toSeconds - row.start_ts.toSeconds := by omega
      exact_mod_cast this
    positivity

/-- C7 witness: the seeded morning session (09:00:00 to 10:00:00) has a
valid record and its duration is 3600 seconds, hence nonnegative. -/
theorem duration_eq_end_sub_start_witness :
    duration_min ⟨1, 1, dtMorningStart, dtMorningEnd, 25, ""⟩ * 60 =
      ((dtMorningEnd.toSeconds - dtMorningStart.toSeconds : Int) : ℚ) ∧
    0 ≤ duration_min ⟨1, 1, dtMorningStart, dtMorningEnd, 25, ""⟩ :=
  ⟨(duration_eq_end_sub_start ⟨1, 1, dtMorningStart, dtMorningEnd, 25, ""⟩).1,
    (duration_eq_end_sub_start ⟨1, 1, dtMorningStart, dtMorningEnd, 25, ""⟩).2 (by decide)⟩

/-- A store holding exactly one book, with id 1. -/
def c3_db : DB :=
  { books := [⟨1, "Atomic Habits", "James Clear", none, some 320, "reading", "2026-01-01T00:00:00"⟩],
    sessions := [],
    goals := [],
    nextBookId := 2,
    nextSessionId := 1 }

/-- A sessions CSV with a valid row for book 1, a row referencing the
non-existent book 2, and a row whose book_id fails int(). -/
def c3_rows : List CsvSessionRow :=
  [⟨some 1, dtMorningStart, dtMorningEnd, some 10, "ok"⟩,
   ⟨some 2, dtMorningStart, dtMorningEnd, some 5, "orphan"⟩,
   ⟨none, dtMorningStart, dtMorningEnd, some 3, "malformed"⟩]

/-- C3: importing a sessions CSV whose second row references the
non-existent book 2 does NOT fail that row: the insert succeeds because
foreign-key enforcement is never enabled on the connection, so the
reported count is 2 — the valid row plus the dangling one — and a
session row with book_id 2 is stored even though no book has id 2.
Only the row whose book_id fails int() is skipped. -/
theorem import_sessions_counts_dangling_row :
    (import_sessions c3_db c3_rows).2 = 2 ∧
    ((import_sessions c3_db c3_rows).1.sessions.filter fun s => s.book_id = 2) =
      [⟨2, 2, dtMorningStart, dtMorningEnd, 5, "orphan"⟩] ∧
    ((import_sessions c3_db c3_rows).1.books.filter fun b => b.id = 2) = [] := by
  refine ⟨rfl, rfl, rfl⟩

/-- Summing a pointwise sum of two integer-valued functions over a list
splits into two sums. -/
lemma sum_map_add_split {κ : Type} (D : List κ) (f g : κ → Int) :
    (D.map fun k => f k + g k).sum = (D.map f).sum + (D.map g).sum := by
  induction D with
  | nil => simp
  | cons k ks ih =>
      simp only [List.map_cons, List.sum_cons, ih]
      ring

/-- Over a duplicate-free list containing k0, summing the indicator of
k0 weighted by c gives exactly c. -/
lemma sum_map_indicator {κ : Type} [DecidableEq κ] (D : List κ) (k0 : κ) (c : Int)
    (hnd : D.Nodup) (hmem : k0 ∈ D) :
    (D.map fun k => if k = k0 then c else 0).sum = c := by
  induction D with
  | nil => simp at hmem
  | cons k ks ih =>
      rcases List.mem_cons.mp hmem with h | h
      · subst h
        have hk : k0 ∉ ks := (List.nodup_cons.mp hnd).1
        have hz : (ks.map fun k => if k = k0 then c else 0).sum = 0 := by
          apply List.sum_eq_zero
          intro x hx
          rcases List.mem_map.mp hx with ⟨k1, hk1, rfl⟩
          have hne : k1 ≠ k0 := fun e => hk (e ▸ hk1)
          simp [hne]
        simp [hz]
      · have hk : k ≠ k0 := by
          rintro rfl
          exact (List.nodup_cons.mp hnd).1 h
        simp [hk, ih (List.nodup_cons.mp hnd).2 h]

/-- Partitioning a list by a key and summing the per-group sums of an
integer attribute recovers the total sum of the attribute. -/
lemma grouped_sum {α κ : Type} [DecidableEq κ] (key : α → κ) (f : α → Int) (l : List α) :
    (((l.map key).dedup).map fun k => ((l.filter fun x => key x = k).map f).sum).sum
      = (l.map f).sum := by
  induction l with
  | nil => simp
  | cons a t ih =>
      have hsplit : ∀ k,
          (((a :: t).filter fun x => key x = k).map f).sum
            = ((t.filter fun x => key x = k).map f).sum + (if k = key a then f a else 0) := by
        intro k
        rcases eq_or_ne (key a) k with h | h
        · subst h
          simp [List.filter_cons]
          omega
        · simp [List.filter_cons, h, Ne.symm h]
      by_cases hmem : key a ∈ t.map key
      · rw [List.map_cons, List.dedup_cons_of_mem hmem,
          List.map_congr_left fun k _ => hsplit k, sum_map_add_split,
          sum_map_indicator ((t.map key).dedup) (key a) (f a) (List.nodup_dedup _)
            (List.mem_dedup.mpr hmem), ih]
        simp only [List.map_cons, List.sum_cons]
        omega
      · rw [List.map_cons, List.dedup_cons_of_not_mem hmem, List.map_cons, List.sum_cons,
          hsplit (key a)]
        have hnil : (t.filter fun x => key x = key a) = [] := by
          rw [List.filter_eq_nil_iff]
          intro x hx
          simp only [decide_eq_true_eq]
          intro hxa
          exact hmem (List.mem_map.mpr ⟨x, hx, hxa⟩)
        have hrest : (((t.map key).dedup).map fun k =>
            (((a :: t).filter fun x => key x = k).map f).sum).sum
              = (((t.map key).dedup).map fun k =>
                ((t.filter fun x => key x = k).map f).sum).sum := by
          apply congrArg
          apply List.map_congr_left
          intro k hk
          have hka : k ≠ key a := by
            rintro rfl
            exact hmem (List.mem_dedup.mp hk)
          rw [hsplit k]
          simp [hka]
        rw [hrest, ih, hnil]
        simp

/-- C5: the sum over all months of the monthly pages_read aggregates
(sessions grouped by the calendar month of their start) equals the
total pages logged across all sessions. -/
theorem monthly_pages_sum_eq_total (l : List SessionRow) :
    ((monthlyPages l).map Prod.snd).sum = totalPages l := by
  unfold monthlyPages
  rw [List.map_map]
  exact grouped_sum monthKey SessionRow.pages_read l

/-- The byte-wise lexicographic order is total. -/
lemma lexLeNat_total : ∀ xs ys : List Nat, lexLeNat xs ys = true ∨ lexLeNat ys xs = true
  | [], _ => Or.inl rfl
  | _ :: _, [] => Or.inr rfl
  | x :: xs, y :: ys => by
      rcases Nat.lt_trichotomy x y with h | rfl | h
      · left
        simp [lexLeNat, h]
      · have hx : ¬x < x := Nat.lt_irrefl x
        rcases lexLeNat_total xs ys with ih | ih
        · left
          simp [lexLeNat, hx, ih]
        · right
          simp [lexLeNat, hx, ih]
      · right
        simp [lexLeNat, h]

/-- The byte-wise lexicographic order is transitive. -/
lemma lexLeNat_trans : ∀ xs ys zs : List Nat,
    lexLeNat xs ys = true → lexLeNat ys zs = true → lexLeNat xs zs = true
  | [], _, _ => fun _ _ => rfl
  | _ :: _, [], _ => fun h1 _ => by simp [lexLeNat] at h1
  | _ :: _, _ :: _, [] => fun _ h2 => by simp [lexLeNat] at h2
  | x :: xs, y :: ys, z :: zs => fun h1 h2 => by
      rcases Nat.lt_trichotomy x y with hxy | rfl | hxy
      · rcases Nat.lt_trichotomy y z with hyz | rfl | hyz
        · simp [lexLeNat, hxy.trans hyz]
        · simp [lexLeNat, hxy]
        · simp [lexLeNat, Nat.lt_asymm hyz, hyz] at h2
      · rcases Nat.lt_trichotomy x z with hxz | rfl | hxz
        · simp [lexLeNat, hxz]
        · have hx : ¬x < x := Nat.lt_irrefl x
          simp only [lexLeNat, hx, if_false] at h1 h2 ⊢
          exact lexLeNat_trans xs ys zs h1 h2
        · simp [lexLeNat, Nat.lt_asymm hxz, hxz] at h2
      · simp [lexLeNat, Nat.lt_asymm hxy, hxy] at h1

/-- The NOCASE book ordering is total (for any column). -/
instance (column : String) : IsTotal Book (bookLe column) :=
  ⟨fun _ _ => lexLeNat_total _ _⟩

/-- The NOCASE book ordering is transitive (for any column). -/
instance (column : String) : IsTrans Book (bookLe column) :=
  ⟨fun _ _ _ h1 h2 => lexLeNat_trans _ _ _ h1 h2⟩

/-- C8: fetch_books returns a permutation of the stored books, sorted
case-insensitively (NOCASE) by the effective column; the effective
column is the requested one exactly when it belongs to the allow-list
of title, author, added_at and shelf, and falls back to title for any
other requested column. -/
theorem fetch_books_allowlist_nocase (db : DB) (order_by : String) :
    (fetch_books db order_by).Perm db.books ∧
    List.Sorted (bookLe (orderColumn order_by)) (fetch_books db order_by) ∧
    (order_by ∈ valid_columns → orderColumn order_by = order_by) ∧
    (order_by ∉ valid_columns → orderColumn order_by = "title") := by
  refine ⟨List.perm_insertionSort _ _, List.sorted_insertionSort _ _, ?_, ?_⟩
  · intro h
    simp [orderColumn, h]
  · intro h
    simp [orderColumn, h]

/-- C8 witness: the allow-listed column "author" is used as requested,
while the unknown column "publisher" falls back to "title". -/
theorem fetch_books_allowlist_nocase_witness :
    orderColumn "author" = "author" ∧ orderColumn "publisher" = "title" :=
  ⟨(fetch_books_allowlist_nocase empty_db "author").2.2.1 (by decide),
   (fetch_books_allowlist_nocase empty_db "publisher").2.2.2 (by decide)⟩

/-- fetch_sessions with no limit is the sorted join. -/
lemma fetch_sessions_none (db : DB) :
    fetch_sessions db none = (joinSessionsBooks db).insertionSort
      (fun a b => b.s.start_ts.toSeconds ≤ a.s.start_ts.toSeconds) := rfl

/-- fetch_sessions with a limit takes a prefix of the sorted join
(limit 0 being falsy in Python, it takes nothing away). -/
lemma fetch_sessions_some (db : DB) (n : Nat) :
    fetch_sessions db (some n) =
      (if n = 0 then ((joinSessionsBooks db).insertionSort
          (fun a b => b.s.start_ts.toSeconds ≤ a.s.start_ts.toSeconds))
        else ((joinSessionsBooks db).insertionSort
          (fun a b => b.s.start_ts.toSeconds ≤ a.s.start_ts.toSeconds)).take n) := rfl

/-- C9: every row fetch_sessions returns joins a stored session to an
existing book (inner join), and a stored session whose book_id matches
no stored book is omitted from every fetch_sessions listing. -/
theorem fetch_sessions_inner_join (db : DB) (limit : Option Nat) :
    (∀ r ∈ fetch_sessions db limit, ∃ b ∈ db.books, b.id = r.s.book_id) ∧
    (∀ s ∈ db.sessions, (∀ b ∈ db.books, b.id ≠ s.book_id) →
      ∀ r ∈ fetch_sessions db limit, r.s ≠ s) := by
  have hbook : ∀ r ∈ fetch_sessions db limit, ∃ b ∈ db.books, b.id = r.s.book_id := by
    intro r hr
    have hjoin : r ∈ joinSessionsBooks db := by
      apply (List.perm_insertionSort
        (fun a b => b.s.start_ts.toSeconds ≤ a.s.start_ts.toSeconds)
        (joinSessionsBooks db)).mem_iff.mp
      rcases limit with _ | n
      · rw [fetch_sessions_none] at hr
        exact hr
      · rw [fetch_sessions_some] at hr
        by_cases hn : n = 0
        · rw [if_pos hn] at hr
          exact hr
        · rw [if_neg hn] at hr
          exact List.mem_of_mem_take hr
    unfold joinSessionsBooks at hjoin
    rcases List.mem_flatMap.mp hjoin with ⟨s, _, hr3⟩
    rcases List.mem_map.mp hr3 with ⟨b, hb, rfl⟩
    have hfb := List.mem_filter.mp hb
    refine ⟨b, hfb.1, ?_⟩
    simpa using hfb.2
  refine ⟨hbook, ?_⟩
  intro s _ hnone r hr hrs
  rcases hbook r hr with ⟨b, hb, hid⟩
  exact hnone b hb (hid.trans (congrArg SessionRow.book_id hrs))

/-- A store with one book (id 1), a session referencing it and an
orphan session referencing the absent book 99. -/
def c9_db : DB :=
  { books := [⟨1, "Atomic Habits", "James Clear", none, some 320, "reading", "2026-01-01T00:00:00"⟩],
    sessions := [⟨1, 1, dtMorningStart, dtMorningEnd, 5, ""⟩,
                 ⟨2, 99, dtMorningStart, dtMorningEnd, 7, ""⟩],
    goals := [],
    nextBookId := 2,
    nextSessionId := 3 }

/-- C9 witness: the row fetch_sessions returns on the concrete store is
backed by an existing book, and the orphan session (book_id 99) appears
in no returned row. -/
theorem fetch_sessions_inner_join_witness :
    (∃ b ∈ c9_db.books,
      b.id = (⟨⟨1, 1, dtMorningStart, dtMorningEnd, 5, ""⟩, "Atomic Habits", "James Clear"⟩ :
        JoinedRow).s.book_id) ∧
    ((⟨⟨1, 1, dtMorningStart, dtMorningEnd, 5, ""⟩, "Atomic Habits", "James Clear"⟩ :
        JoinedRow).s ≠ ⟨2, 99, dtMorningStart, dtMorningEnd, 7, ""⟩) :=
  ⟨(fetch_sessions_inner_join c9_db none).1
      ⟨⟨1, 1, dtMorningStart, dtMorningEnd, 5, ""⟩, "Atomic Habits", "James Clear"⟩ (by decide),
   (fetch_sessions_inner_join c9_db none).2
      ⟨2, 99, dtMorningStart, dtMorningEnd, 7, ""⟩ (by decide) (by decide)
      ⟨⟨1, 1, dtMorningStart, dtMorningEnd, 5, ""⟩, "Atomic Habits", "James Clear"⟩ (by decide)⟩

end BookTraker
